import Mathlib

/-!
# Verification of the momentli-pdf-merge service

Shallow embedding of the two source files of the service:

* `src/index.js` — legacy single-endpoint service (`POST /merge`): inline
  incremental merge that zeroes each downloaded buffer with `fill(0)` right
  after `PDFDocument.load`, then uploads the result to object storage.
* `src/unnamed/part_000` — v2.1 service: shared `mergeBatches` /
  `downloadBatch` helpers (which deliberately do NOT zero buffers, per the
  `NOTE` comments in the source), a `checkAuth` middleware, a `POST /merge`
  endpoint and a `POST /merge-and-upload` endpoint (FTP delivery with an
  optional XML sidecar, followed by best-effort cleanup of the batch files).

PDF bytes are abstracted to the ordered list of pages they encode plus a
well-formedness flag (`PDFDocument.load` succeeds exactly on well-formed
buffers); a buffer's byte length is measured by its number of pages.  Every
embedded operation additionally records the externally observable effects it
performs (network fetches, parses, buffer zeroing, document discards, FTP
and storage calls) as an explicit trace, so that fail-fast, residency and
ordering properties can be stated over the trace.
-/

deriving instance DecidableEq for Except

namespace PdfMerge

/-- A raw byte buffer holding a serialized PDF, abstracted to the page list
it encodes. `ok` records whether `PDFDocument.load` succeeds on it. -/
structure RawPdf (Page : Type) where
  pages : List Page
  ok : Bool
deriving DecidableEq

/-- Abstract byte length of a serialized buffer (`mergedBytes.length` in the
source), measured in pages under the abstraction. -/
def RawPdf.length {Page : Type} (b : RawPdf Page) : Nat := b.pages.length

/-- An in-memory `PDFDocument` of pdf-lib: an ordered list of pages. -/
structure PDFDoc (Page : Type) where
  pages : List Page
deriving DecidableEq

namespace PdfLib

/-- `PDFDocument.load(buffer)`: parses a buffer, failing on malformed input. -/
def load {Page : Type} (b : RawPdf Page) : Except String (PDFDoc Page) :=
  if b.ok then .ok ⟨b.pages⟩ else .error "Failed to parse PDF document"

/-- `doc.getPageCount()`. -/
def getPageCount {Page : Type} (d : PDFDoc Page) : Nat := d.pages.length

/-- `doc.getPageIndices()`: `[0, 1, ..., pageCount - 1]`. -/
def getPageIndices {Page : Type} (d : PDFDoc Page) : List Nat :=
  List.range d.pages.length

/-- `dst.copyPages(src, indices)`: copies of `src`'s pages at `indices`,
in order. -/
def copyPages {Page : Type} (src : PDFDoc Page) (indices : List Nat) :
    List Page :=
  indices.filterMap src.pages.get?

/-- `doc.addPage(page)`: appends one page. -/
def addPage {Page : Type} (d : PDFDoc Page) (p : Page) : PDFDoc Page :=
  ⟨d.pages ++ [p]⟩

/-- `doc.save()`: serializes the document; the output parses back to the
same pages. -/
def save {Page : Type} (d : PDFDoc Page) : RawPdf Page :=
  ⟨d.pages, true⟩

end PdfLib

/-- The object-storage backend's contents: bucket `print-queue`, keyed by
storage path. -/
def Store (Page : Type) : Type := String → Option (RawPdf Page)

/-- Observable effects performed by the service, in program order. -/
inductive Effect where
  /-- `supabase.storage.from("print-queue").download(path)` — a network
  fetch of one batch. -/
  | download (path : String)
  /-- A successful `PDFDocument.load`: one more parsed document resident. -/
  | loadDoc
  /-- `buffer.fill(0)` — the raw downloaded buffer is zeroed (released). -/
  | zeroBuffer
  /-- The transient per-batch `batchPdf` leaves scope at the end of a loop
  iteration. -/
  | discardTransient
  /-- `mergedPdf.save()`. -/
  | saveDoc
  /-- `mergedPdf = null` — the accumulator is released. -/
  | releaseAccumulator
  /-- `client.access({host, ...})` — FTP session establishment. -/
  | ftpAccess (host : String)
  /-- `client.uploadFrom(..., filename)` — one FTP transfer. -/
  | ftpUpload (filename : String)
  /-- `client.close()`. -/
  | ftpClose
  /-- `supabase.storage.from("print-queue").upload(path, ...)`. -/
  | storageUpload (path : String)
  /-- `supabase.storage.from("print-queue").remove(paths)` — cleanup of the
  source batches. -/
  | storageRemove (paths : List String)
  /-- `console.warn("Cleanup warning: ...")` — a caught cleanup failure. -/
  | cleanupWarning
deriving DecidableEq

/-- The batch paths fetched along a trace, in fetch order. -/
def downloads (tr : List Effect) : List String :=
  tr.filterMap fun e =>
    match e with
    | .download p => some p
    | _ => none

/-- Whether a trace contains an attempted cleanup of source batches. -/
def cleanupAttempted (tr : List Effect) : Bool :=
  tr.any fun e =>
    match e with
    | .storageRemove _ => true
    | _ => false

/-- Net change an effect makes to the number of resident parsed documents. -/
def docDelta : Effect → Int
  | .loadDoc => 1
  | .discardTransient => -1
  | .releaseAccumulator => -1
  | _ => 0

/-- Net number of parsed documents created minus discarded along a trace. -/
def docCount (tr : List Effect) : Int :=
  (tr.map docDelta).sum

/-- Maximum number of resident parsed documents reached at any instant
along a trace, starting from `c` resident documents. -/
def runMax (c : Int) : List Effect → Int
  | [] => c
  | e :: tr => max c (runMax (c + docDelta e) tr)

/-- `true` iff every successful parse is immediately followed by zeroing of
the raw buffer it was parsed from (`buffer.fill(0)` right after `load`):
the code's mechanism for not retaining raw bytes of a parsed batch. -/
def zeroedAfterLoad : List Effect → Bool
  | [] => true
  | .loadDoc :: .zeroBuffer :: tr => zeroedAfterLoad tr
  | .loadDoc :: _ => false
  | _ :: tr => zeroedAfterLoad tr

/-- A JSON body field that the handlers test with
`!x || !Array.isArray(x) || x.length === 0`. -/
inductive BodyField (α : Type) where
  /-- Absent, `null` or otherwise falsy (`!x`). -/
  | missing
  /-- Present but not an array (`!Array.isArray(x)`). -/
  | nonArray
  /-- An array value. -/
  | array (xs : List α)
deriving DecidableEq

/-- JavaScript truthiness of an optional string: absent and `""` are falsy. -/
def jsTruthy : Option String → Bool
  | none => false
  | some s => ¬(s = "")

/-- The auth check shared by all endpoints (`checkAuth` middleware in
part_000, inline in index.js):
`if (!secret || secret !== MERGE_API_SECRET) return 401`.
Returns `true` iff the request is authorized. `configured` is the
`MERGE_API_SECRET` environment variable (possibly unset). -/
def checkAuth (secret configured : Option String) : Bool :=
  match secret with
  | none => false
  | some s => if s = "" then false else if configured = some s then true else false

/-- The result object `{ mergedBytes, pageCount }` returned by
`mergeBatches`. -/
structure MergeResult (Page : Type) where
  mergedBytes : RawPdf Page
  pageCount : Nat
deriving DecidableEq

/-- The pages a stored batch contributes (empty if the object is absent):
used to state page-order properties. -/
def batchPages {Page : Type} (store : Store Page) (p : String) : List Page :=
  match store p with
  | some b => b.pages
  | none => []

/-- `supabase.storage.from("print-queue").upload(path, bytes, {upsert})`:
writes `bytes` at `path`. With `upsert = false` an existing object is a
conflict error; with `upsert = true` it is overwritten. `backendErr` models
an exogenous backend failure (network etc.). Returns the reported error (if
any) and the updated store. -/
def Supabase.upload {Page : Type} (store : Store Page) (path : String)
    (bytes : RawPdf Page) (upsert : Bool) (backendErr : Option String) :
    Option String × Store Page :=
  match backendErr with
  | some m => (some m, store)
  | none =>
    if upsert = false ∧ (store path).isSome then
      (some "The resource already exists", store)
    else
      (none, fun q => if q = path then some bytes else store q)

/-- HTTP responses sent by the handlers. -/
inductive Resp where
  /-- `401 {error: "Unauthorized"}`. -/
  | unauthorized
  /-- `400 {error: msg}`. -/
  | badRequest (error : String)
  /-- `500 {error: msg}`. -/
  | serverError (error : String)
  /-- `200 {storagePath, size, pages}` from `POST /merge`. -/
  | mergeOk (storagePath : String) (size : Nat) (pages : Nat)
  /-- `200 {size, pages, ftpUploaded, pdfFilename, xmlFilename}` from
  `POST /merge-and-upload`. -/
  | mergeUploadOk (size : Nat) (pages : Nat) (ftpUploaded : Bool)
      (pdfFilename : String) (xmlFilename : Option String)
deriving DecidableEq

/-! ## src/unnamed/part_000 (v2.1 service) -/

namespace Part000

/-- `downloadBatch(supabase, storagePath)` (part_000 lines 169-179). -/
def downloadBatch {Page : Type} (store : Store Page) (storagePath : String) :
    Except String (RawPdf Page) :=
  match store storagePath with
  | none => .error ("Failed to download " ++ storagePath)
  | some data => .ok data

/-- The `for (let i = 1; ...)` loop of `mergeBatches` (part_000 lines
148-159): download batch i, load it (the raw buffer is deliberately NOT
zeroed, per the NOTE comments), copy all its pages onto the accumulator,
then let the transient document leave scope. -/
def mergeLoop {Page : Type} (store : Store Page) (paths : List String)
    (mergedPdf : PDFDoc Page) : Except String (PDFDoc Page) × List Effect :=
  match paths with
  | [] => (.ok mergedPdf, [])
  | p :: rest =>
    match downloadBatch store p with
    | .error e => (.error e, [Effect.download p])
    | .ok batchBuffer =>
      match PdfLib.load batchBuffer with
      | .error e => (.error e, [Effect.download p])
      | .ok batchPdf =>
        let pages := PdfLib.copyPages batchPdf (PdfLib.getPageIndices batchPdf)
        let mergedPdf2 := pages.foldl PdfLib.addPage mergedPdf
        let res := mergeLoop store rest mergedPdf2
        (res.1,
         Effect.download p :: Effect.loadDoc :: Effect.discardTransient :: res.2)

/-- `mergeBatches(supabase, storagePaths)` (part_000 lines 140-167): fetch
and load batch 0 as the accumulator, fold the remaining batches in via the
loop, then save and release the accumulator. The `[]` arm is unreachable
from the handlers (they validate non-emptiness first); it models the
failing `download(storagePaths[0] = undefined)` that JS would perform. -/
def mergeBatches {Page : Type} (store : Store Page) (storagePaths : List String) :
    Except String (MergeResult Page) × List Effect :=
  match storagePaths with
  | [] => (.error "Failed to download undefined", [Effect.download "undefined"])
  | first :: rest =>
    match downloadBatch store first with
    | .error e => (.error e, [Effect.download first])
    | .ok firstBuffer =>
      match PdfLib.load firstBuffer with
      | .error e => (.error e, [Effect.download first])
      | .ok mergedPdf =>
        let res := mergeLoop store rest mergedPdf
        match res.1 with
        | .error e => (.error e, Effect.download first :: Effect.loadDoc :: res.2)
        | .ok finalPdf =>
          (.ok ⟨PdfLib.save finalPdf, PdfLib.getPageCount finalPdf⟩,
           Effect.download first :: Effect.loadDoc ::
             (res.2 ++ [Effect.saveDoc, Effect.releaseAccumulator]))

/-- Request body of `POST /merge` (part_000 line 31): `orderId` and `format`
are interpolated into the output path. -/
structure MergeBody where
  storagePaths : BodyField String
  orderId : String
  format : String

/-- `POST /merge` handler of part_000 (lines 30-56), behind `checkAuth`:
validate, merge, upload the artifact to
`temp/{orderId}/merged_{format}.pdf` with `upsert: true`, and respond.
Returns the response, the effect trace, and the store after the upload. -/
def mergeHandler {Page : Type} (configured secret : Option String)
    (store : Store Page) (backendErr : Option String) (body : MergeBody) :
    Resp × List Effect × Store Page :=
  if checkAuth secret configured then
    match body.storagePaths with
    | .array (p0 :: ps) =>
      let res := mergeBatches store (p0 :: ps)
      match res.1 with
      | .error e => (.serverError e, res.2, store)
      | .ok m =>
        let outputPath := "temp/" ++ body.orderId ++ "/merged_" ++ body.format ++ ".pdf"
        let up := Supabase.upload store outputPath m.mergedBytes true backendErr
        match up.1 with
        | some msg =>
          (.serverError ("Upload failed: " ++ msg),
           res.2 ++ [Effect.storageUpload outputPath], store)
        | none =>
          (.mergeOk outputPath m.mergedBytes.length m.pageCount,
           res.2 ++ [Effect.storageUpload outputPath], up.2)
    | _ => (.badRequest "storagePaths is required", [], store)
  else (.unauthorized, [], store)

/-- The `ftp` object of a `/merge-and-upload` request body. -/
structure FtpConfig where
  host : String
  user : String
  password : String
deriving DecidableEq

/-- Behavior of the remote FTP server for one request: the outcome of
`client.access`, of the first `uploadFrom` call (the PDF) and of the second
`uploadFrom` call (the XML sidecar, when made). -/
structure FtpServer where
  access : Except String Unit
  uploadPdf : Except String Unit
  uploadXml : Except String Unit

/-- Request body of `POST /merge-and-upload` (part_000 line 60). -/
structure MergeUploadBody where
  storagePaths : BodyField String
  orderId : String
  format : String
  ftp : Option FtpConfig
  xmlContent : Option String
  xmlFilename : Option String
  pdfFilename : Option String

/-- The conditional XML sidecar upload (part_000 lines 100-106):
`if (xmlContent && xmlFilename) { await client.uploadFrom(...); xmlUploaded
= true; }`. Returns `xmlUploaded` (or the thrown error) and the effects. -/
def xmlUploadStep (ftpServer : FtpServer) (xmlContent xmlFilename : Option String) :
    Except String Bool × List Effect :=
  match xmlContent, xmlFilename with
  | some xc, some xn =>
    if xc = "" ∨ xn = "" then (.ok false, [])
    else
      match ftpServer.uploadXml with
      | .error e => (.error e, [Effect.ftpUpload xn])
      | .ok _ => (.ok true, [Effect.ftpUpload xn])
  | _, _ => (.ok false, [])

/-- `POST /merge-and-upload` handler of part_000 (lines 59-136), behind
`checkAuth`: validate, merge, connect to FTP, upload the PDF, upload the
XML sidecar when both `xmlContent` and `xmlFilename` are truthy, close the
session, then best-effort cleanup of the batch files (`remove`; a thrown
cleanup error is caught and only warned about) and respond. Any error in
the inner FTP block closes the session and is rethrown as
`FTP upload failed: ...`. -/
def mergeAndUploadHandler {Page : Type} (configured secret : Option String)
    (store : Store Page) (ftpServer : FtpServer)
    (removeResult : Except String Unit) (body : MergeUploadBody) :
    Resp × List Effect :=
  if checkAuth secret configured then
    match body.storagePaths with
    | .array (p0 :: ps) =>
      match body.ftp with
      | none => (.badRequest "ftp config (host, user, password) is required", [])
      | some cfg =>
        if cfg.host = "" ∨ cfg.user = "" ∨ cfg.password = "" then
          (.badRequest "ftp config (host, user, password) is required", [])
        else
          match body.pdfFilename with
          | none => (.badRequest "pdfFilename is required", [])
          | some pdfName =>
            if pdfName = "" then (.badRequest "pdfFilename is required", [])
            else
              let res := mergeBatches store (p0 :: ps)
              match res.1 with
              | .error e => (.serverError e, res.2)
              | .ok m =>
                let tr1 := res.2 ++ [Effect.ftpAccess cfg.host]
                match ftpServer.access with
                | .error e =>
                  (.serverError ("FTP upload failed: " ++ e), tr1 ++ [Effect.ftpClose])
                | .ok _ =>
                  let tr2 := tr1 ++ [Effect.ftpUpload pdfName]
                  match ftpServer.uploadPdf with
                  | .error e =>
                    (.serverError ("FTP upload failed: " ++ e), tr2 ++ [Effect.ftpClose])
                  | .ok _ =>
                    let xmlStep := xmlUploadStep ftpServer body.xmlContent body.xmlFilename
                    match xmlStep.1 with
                    | .error e =>
                      (.serverError ("FTP upload failed: " ++ e),
                       tr2 ++ xmlStep.2 ++ [Effect.ftpClose])
                    | .ok xmlUploaded =>
                      let warnTr :=
                        match removeResult with
                        | .error _ => [Effect.cleanupWarning]
                        | .ok _ => []
                      (.mergeUploadOk m.mergedBytes.length m.pageCount true pdfName
                         (if xmlUploaded then body.xmlFilename else none),
                       tr2 ++ xmlStep.2 ++
                         [Effect.ftpClose, Effect.storageRemove (p0 :: ps)] ++ warnTr)
    | _ => (.badRequest "storagePaths is required", [])
  else (.unauthorized, [])

end Part000

/-! ## src/index.js (legacy service) -/

namespace IndexJs

/-- `downloadBatch(supabase, storagePath)` (index.js lines 99-109);
identical to the part_000 helper. -/
def downloadBatch {Page : Type} (store : Store Page) (storagePath : String) :
    Except String (RawPdf Page) :=
  match store storagePath with
  | none => .error ("Failed to download " ++ storagePath)
  | some data => .ok data

/-- The `for (let i = 1; ...)` loop of the index.js handler (lines 47-60):
like the part_000 loop but each `batchBuffer` is zeroed with `fill(0)`
immediately after a successful `load`. -/
def mergeLoop {Page : Type} (store : Store Page) (paths : List String)
    (mergedPdf : PDFDoc Page) : Except String (PDFDoc Page) × List Effect :=
  match paths with
  | [] => (.ok mergedPdf, [])
  | p :: rest =>
    match downloadBatch store p with
    | .error e => (.error e, [Effect.download p])
    | .ok batchBuffer =>
      match PdfLib.load batchBuffer with
      | .error e => (.error e, [Effect.download p])
      | .ok batchPdf =>
        let pages := PdfLib.copyPages batchPdf (PdfLib.getPageIndices batchPdf)
        let mergedPdf2 := pages.foldl PdfLib.addPage mergedPdf
        let res := mergeLoop store rest mergedPdf2
        (res.1,
         Effect.download p :: Effect.loadDoc :: Effect.zeroBuffer ::
           Effect.discardTransient :: res.2)

/-- Request body of the legacy `POST /merge` (index.js line 25);
`orderNumber` is destructured but unused. -/
structure MergeBody where
  storagePaths : BodyField String
  orderId : String
  format : String
  orderNumber : String

/-- The legacy `POST /merge` handler (index.js lines 18-97): inline auth
check, validation, incremental merge with `fill(0)` after each load, save,
release, then upload to `temp/{orderId}/merged_{format}.pdf` with
`upsert: true`. -/
def mergeHandler {Page : Type} (configured secret : Option String)
    (store : Store Page) (backendErr : Option String) (body : MergeBody) :
    Resp × List Effect × Store Page :=
  if checkAuth secret configured then
    match body.storagePaths with
    | .array (p0 :: ps) =>
      match downloadBatch store p0 with
      | .error e => (.serverError e, [Effect.download p0], store)
      | .ok firstBuffer =>
        match PdfLib.load firstBuffer with
        | .error e => (.serverError e, [Effect.download p0], store)
        | .ok mergedPdf =>
          let res := mergeLoop store ps mergedPdf
          let tr0 := Effect.download p0 :: Effect.loadDoc :: Effect.zeroBuffer :: res.2
          match res.1 with
          | .error e => (.serverError e, tr0, store)
          | .ok finalPdf =>
            let mergedBytes := PdfLib.save finalPdf
            let pageCount := PdfLib.getPageCount finalPdf
            let tr1 := tr0 ++ [Effect.saveDoc, Effect.releaseAccumulator]
            let outputPath := "temp/" ++ body.orderId ++ "/merged_" ++ body.format ++ ".pdf"
            let up := Supabase.upload store outputPath mergedBytes true backendErr
            match up.1 with
            | some msg =>
              (.serverError ("Failed to upload merged PDF: " ++ msg),
               tr1 ++ [Effect.storageUpload outputPath], store)
            | none =>
              (.mergeOk outputPath mergedBytes.length pageCount,
               tr1 ++ [Effect.storageUpload outputPath], up.2)
    | _ =>
      (.badRequest "storagePaths is required and must be a non-empty array", [], store)
  else (.unauthorized, [], store)

end IndexJs

/-! ## Shared lemmas about the merge pipeline -/

/-- `getPageIndices` enumerates every page, so `copyPages` over it copies
the whole page list. -/
theorem range_filterMap_get {α : Type} (l : List α) :
    (List.range l.length).filterMap l.get? = l := by
  induction l with
  | nil => rfl
  | cons a l ih =>
    have h : (a :: l).get? ∘ Nat.succ = l.get? := funext fun i => rfl
    simp [List.range_succ_eq_map, List.filterMap_cons, List.filterMap_map, h, ih]

/-- Copying all page indices of a document yields exactly its pages. -/
theorem copyPages_getPageIndices {Page : Type} (d : PDFDoc Page) :
    PdfLib.copyPages d (PdfLib.getPageIndices d) = d.pages :=
  range_filterMap_get d.pages

/-- Folding `addPage` appends the copied pages in order. -/
theorem foldl_addPage {Page : Type} (ps : List Page) (acc : PDFDoc Page) :
    ps.foldl PdfLib.addPage acc = ⟨acc.pages ++ ps⟩ := by
  induction ps generalizing acc with
  | nil => simp
  | cons p ps ih => simp [List.foldl_cons, PdfLib.addPage, ih]

/-- When every remaining batch is present and well formed, the part_000
merge loop appends, in batch order, each batch's pages onto the
accumulator, and its trace is one download/load/discard triple per batch. -/
theorem Part000.mergeLoop_ok {Page : Type} (store : Store Page)
    (paths : List String)
    (h : ∀ p ∈ paths, ∃ b, store p = some b ∧ b.ok = true)
    (acc : PDFDoc Page) :
    Part000.mergeLoop store paths acc =
      (.ok ⟨acc.pages ++ (paths.map (batchPages store)).flatten⟩,
       (paths.map fun p =>
         [Effect.download p, Effect.loadDoc, Effect.discardTransient]).flatten) := by
  induction paths generalizing acc with
  | nil => simp [Part000.mergeLoop]
  | cons p rest ih =>
    obtain ⟨b, hb, hok⟩ := h p (by simp)
    have hrest : ∀ q ∈ rest, ∃ c, store q = some c ∧ c.ok = true :=
      fun q hq => h q (by simp [hq])
    simp [Part000.mergeLoop, Part000.downloadBatch, hb, PdfLib.load, hok,
      copyPages_getPageIndices, foldl_addPage, ih hrest, batchPages]

/-- Core correctness of `mergeBatches`: over all-good batches it returns
the concatenation of the batches' page lists with page count the sum of
the individual counts. -/
theorem Part000.mergeBatches_ok {Page : Type} (store : Store Page)
    (p0 : String) (ps : List String)
    (h : ∀ p ∈ p0 :: ps, ∃ b, store p = some b ∧ b.ok = true) :
    (Part000.mergeBatches store (p0 :: ps)).1 =
      .ok ⟨⟨(((p0 :: ps)).map (batchPages store)).flatten, true⟩,
           ((((p0 :: ps)).map (batchPages store)).map List.length).sum⟩ := by
  obtain ⟨b0, hb0, hok0⟩ := h p0 (by simp)
  have hrest : ∀ q ∈ ps, ∃ c, store q = some c ∧ c.ok = true :=
    fun q hq => h q (by simp [hq])
  simp [Part000.mergeBatches, Part000.downloadBatch, hb0, PdfLib.load, hok0,
    Part000.mergeLoop_ok store ps hrest, PdfLib.save, PdfLib.getPageCount,
    batchPages, List.length_flatten]

/-- A concrete two-batch store (batch "a" has pages 1,2,3; batch "b" has
pages 4,5) used to instantiate the theorems. -/
def storeAB : Store Nat := fun p =>
  if p = "a" then some ⟨[1, 2, 3], true⟩
  else if p = "b" then some ⟨[4, 5], true⟩
  else none

/-- C1: for every non-empty ordered batch list whose batches are all
present and well formed, the merged artifact's page list is the
concatenation, in batch-list order, of each batch's internal page order,
and its page count is the sum of the individual batches' page counts. -/
theorem C1_merge_concatenation {Page : Type} (store : Store Page)
    (p0 : String) (ps : List String)
    (h : ∀ p ∈ p0 :: ps, ∃ b, store p = some b ∧ b.ok = true) :
    (Part000.mergeBatches store (p0 :: ps)).1 =
      .ok ⟨⟨((p0 :: ps).map (batchPages store)).flatten, true⟩,
           (((p0 :: ps).map (batchPages store)).map List.length).sum⟩ :=
  Part000.mergeBatches_ok store p0 ps h

/-- C1 witness: merging batches `["a", "b"]` of `storeAB` concatenates
pages `[1,2,3]` and `[4,5]`. -/
theorem C1_witness :
    (∀ p ∈ "a" :: ["b"], ∃ b, storeAB p = some b ∧ b.ok = true) ∧
      (Part000.mergeBatches storeAB ("a" :: ["b"])).1 =
        .ok ⟨⟨(("a" :: ["b"]).map (batchPages storeAB)).flatten, true⟩,
             ((("a" :: ["b"]).map (batchPages storeAB)).map List.length).sum⟩ := by
  have h : ∀ p ∈ "a" :: ["b"], ∃ b, storeAB p = some b ∧ b.ok = true := by
    intro p hp
    simp only [List.mem_cons, List.mem_singleton] at hp
    rcases hp with rfl | rfl | hp
    · exact ⟨⟨[1, 2, 3], true⟩, by decide, rfl⟩
    · exact ⟨⟨[4, 5], true⟩, by decide, rfl⟩
    · simp at hp
  exact ⟨h, C1_merge_concatenation storeAB "a" ["b"] h⟩

/-- C8: merging a single-batch list is content-idempotent — the output has
exactly that batch's pages (round-trip through parse and serialize with no
page loss) and its page count equals the batch's own page count. -/
theorem C8_single_batch_idempotent {Page : Type} (store : Store Page)
    (p : String) (b : RawPdf Page)
    (hb : store p = some b) (hok : b.ok = true) :
    (Part000.mergeBatches store [p]).1 =
      .ok ⟨⟨b.pages, true⟩, b.pages.length⟩ := by
  simp [Part000.mergeBatches, Part000.downloadBatch, hb, PdfLib.load, hok,
    Part000.mergeLoop, PdfLib.save, PdfLib.getPageCount]

/-- C8 witness: merging just batch "a" returns its three pages unchanged. -/
theorem C8_witness :
    storeAB "a" = some ⟨[1, 2, 3], true⟩ ∧
      (RawPdf.mk [1, 2, 3] true).ok = true ∧
      (Part000.mergeBatches storeAB ["a"]).1 =
        .ok ⟨⟨[1, 2, 3], true⟩, 3⟩ :=
  ⟨by decide, rfl,
   C8_single_batch_idempotent storeAB "a" ⟨[1, 2, 3], true⟩ (by decide) rfl⟩

/-- If batches `0..k-1` of the remaining list are good but fetching batch
`k` fails, the part_000 merge loop propagates that download error and
fetches exactly batches `0..k` (fail-fast: nothing past `k`). -/
theorem Part000.mergeLoop_fail {Page : Type} (store : Store Page)
    (paths : List String) (k : Nat) (hk : k < paths.length)
    (hgood : ∀ j (hj : j < k),
      ∃ b, store (paths.get ⟨j, Nat.lt_trans hj hk⟩) = some b ∧ b.ok = true)
    (hbad : store (paths.get ⟨k, hk⟩) = none) (acc : PDFDoc Page) :
    (Part000.mergeLoop store paths acc).1 =
        .error ("Failed to download " ++ paths.get ⟨k, hk⟩) ∧
      downloads (Part000.mergeLoop store paths acc).2 = paths.take (k + 1) := by
  induction paths generalizing k acc with
  | nil => exact absurd hk (by simp)
  | cons p rest ih =>
    cases k with
    | zero =>
      simp only [List.get] at hbad
      simp [Part000.mergeLoop, Part000.downloadBatch, hbad, downloads]
    | succ j =>
      obtain ⟨b, hb, hok⟩ := hgood 0 (Nat.succ_pos j)
      simp only [List.get] at hb
      have hk' : j < rest.length := Nat.lt_of_succ_lt_succ hk
      have hgood' : ∀ i (hi : i < j),
          ∃ b, store (rest.get ⟨i, Nat.lt_trans hi hk'⟩) = some b ∧ b.ok = true :=
        fun i hi => hgood (i + 1) (Nat.succ_lt_succ hi)
      have hbad' : store (rest.get ⟨j, hk'⟩) = none := hbad
      have := ih j hk' hgood' hbad'
        (List.foldl PdfLib.addPage acc
          (PdfLib.copyPages ⟨b.pages⟩ (PdfLib.getPageIndices ⟨b.pages⟩)))
      simp [Part000.mergeLoop, Part000.downloadBatch, hb, PdfLib.load, hok,
        downloads, List.get] at this ⊢
      exact this

/-- C4: if fetching batch `k` (k > 0) fails while batches `0..k-1` are
good, `mergeBatches` aborts fail-fast — exactly batches `0..k` are
fetched, no artifact is produced, and the download error for batch `k` is
propagated. -/
theorem C4_fetch_failure_fail_fast {Page : Type} (store : Store Page)
    (paths : List String) (k : Nat) (hk : k < paths.length) (hkpos : 0 < k)
    (hgood : ∀ j (hj : j < k),
      ∃ b, store (paths.get ⟨j, Nat.lt_trans hj hk⟩) = some b ∧ b.ok = true)
    (hbad : store (paths.get ⟨k, hk⟩) = none) :
    (Part000.mergeBatches store paths).1 =
        .error ("Failed to download " ++ paths.get ⟨k, hk⟩) ∧
      downloads (Part000.mergeBatches store paths).2 = paths.take (k + 1) := by
  cases paths with
  | nil => exact absurd hk (by simp)
  | cons p0 rest =>
    cases k with
    | zero => exact absurd hkpos (by simp)
    | succ j =>
      obtain ⟨b0, hb0, hok0⟩ := hgood 0 (Nat.succ_pos j)
      simp only [List.get] at hb0
      have hk' : j < rest.length := Nat.lt_of_succ_lt_succ hk
      have hgood' : ∀ i (hi : i < j),
          ∃ b, store (rest.get ⟨i, Nat.lt_trans hi hk'⟩) = some b ∧ b.ok = true :=
        fun i hi => hgood (i + 1) (Nat.succ_lt_succ hi)
      have hloop := Part000.mergeLoop_fail store rest j hk' hgood' hbad ⟨b0.pages⟩
      rcases h2 : Part000.mergeLoop store rest ⟨b0.pages⟩ with ⟨r, tr⟩
      rw [h2] at hloop
      simp only at hloop
      simp only [Part000.mergeBatches, Part000.downloadBatch, hb0, PdfLib.load,
        hok0, if_true, h2]
      simp [hloop.1, downloads, List.get]
      simpa [downloads] using hloop.2

/-- The starting level is a lower bound of the running maximum. -/
theorem le_runMax (c : Int) (tr : List Effect) : c ≤ runMax c tr := by
  induction tr generalizing c with
  | nil => simp [runMax]
  | cons e tr ih => exact le_max_left _ _

/-- `runMax` splits over concatenation: the second part starts at the level
the first part ends on. -/
theorem runMax_append (c : Int) (a b : List Effect) :
    runMax c (a ++ b) = max (runMax c a) (runMax (c + docCount a) b) := by
  induction a generalizing c with
  | nil =>
    simp only [List.nil_append, runMax, docCount, List.map_nil, List.sum_nil,
      add_zero]
    exact (max_eq_right (le_runMax c b)).symm
  | cons e a ih =>
    simp [runMax, docCount, ih, max_assoc, add_assoc]

/-- The part_000 merge loop keeps at most one transient document above its
entry level, its trace is balanced (every parse is matched by a discard),
and it never zeroes a buffer. -/
theorem Part000.mergeLoop_trace_bound {Page : Type} (store : Store Page)
    (paths : List String) (acc : PDFDoc Page) (c : Int) :
    runMax c (Part000.mergeLoop store paths acc).2 ≤ c + 1 ∧
      docCount (Part000.mergeLoop store paths acc).2 = 0 ∧
      Effect.zeroBuffer ∉ (Part000.mergeLoop store paths acc).2 := by
  induction paths generalizing acc c with
  | nil =>
    refine ⟨?_, by simp [Part000.mergeLoop, docCount], by simp [Part000.mergeLoop]⟩
    simp [Part000.mergeLoop, runMax]
  | cons p rest ih =>
    cases hs : store p with
    | none =>
      refine ⟨?_, by simp [Part000.mergeLoop, Part000.downloadBatch, hs, docCount,
        docDelta], by simp [Part000.mergeLoop, Part000.downloadBatch, hs]⟩
      simp [Part000.mergeLoop, Part000.downloadBatch, hs, runMax, docDelta]
    | some b =>
      cases hok : b.ok with
      | false =>
        refine ⟨?_, by simp [Part000.mergeLoop, Part000.downloadBatch, hs,
          PdfLib.load, hok, docCount, docDelta],
          by simp [Part000.mergeLoop, Part000.downloadBatch, hs, PdfLib.load, hok]⟩
        simp [Part000.mergeLoop, Part000.downloadBatch, hs, PdfLib.load, hok,
          runMax, docDelta]
      | true =>
        obtain ⟨ih1, ih2, ih3⟩ := ih
          ((PdfLib.copyPages ⟨b.pages⟩ (PdfLib.getPageIndices ⟨b.pages⟩)).foldl
            PdfLib.addPage acc) c
        refine ⟨?_, ?_, ?_⟩
        · simp only [Part000.mergeLoop, Part000.downloadBatch, hs, PdfLib.load,
            hok, if_true, runMax, docDelta]
          have h : c + 0 + 1 + -1 = c := by omega
          rw [h]
          have h2 : c + 0 + 1 = c + 1 := by omega
          rw [h2]
          omega
        · simp [Part000.mergeLoop, Part000.downloadBatch, hs, PdfLib.load, hok,
            docCount, docDelta] at ih2 ⊢
          simpa [docCount] using ih2
        · simp [Part000.mergeLoop, Part000.downloadBatch, hs, PdfLib.load, hok]
          exact ih3

/-- During any part_000 merge run, at most two parsed documents are
resident at any instant, and no buffer is ever zeroed. -/
theorem Part000.mergeBatches_trace_bound {Page : Type} (store : Store Page)
    (paths : List String) :
    runMax 0 (Part000.mergeBatches store paths).2 ≤ 2 ∧
      Effect.zeroBuffer ∉ (Part000.mergeBatches store paths).2 := by
  cases paths with
  | nil => simp [Part000.mergeBatches, runMax, docDelta]
  | cons p0 rest =>
    cases hs : store p0 with
    | none => simp [Part000.mergeBatches, Part000.downloadBatch, hs, runMax, docDelta]
    | some b =>
      cases hok : b.ok with
      | false =>
        simp [Part000.mergeBatches, Part000.downloadBatch, hs, PdfLib.load, hok,
          runMax, docDelta]
      | true =>
        obtain ⟨h1, h2, h3⟩ := Part000.mergeLoop_trace_bound store rest ⟨b.pages⟩ 1
        rcases hres : Part000.mergeLoop store rest ⟨b.pages⟩ with ⟨r, tr⟩
        rw [hres] at h1 h2 h3
        simp only at h1 h2 h3
        cases r with
        | error e =>
          constructor
          · simp only [Part000.mergeBatches, Part000.downloadBatch, hs,
              PdfLib.load, hok, if_true, hres, runMax, docDelta]
            simp only [add_zero, zero_add]
            omega
          · simp [Part000.mergeBatches, Part000.downloadBatch, hs, PdfLib.load,
              hok, hres]
            exact h3
        | ok finalPdf =>
          constructor
          · simp only [Part000.mergeBatches, Part000.downloadBatch, hs,
              PdfLib.load, hok, if_true, hres, runMax, docDelta]
            simp only [add_zero, zero_add]
            rw [runMax_append, h2]
            simp only [runMax, docDelta, add_zero]
            have h4 : (1 : Int) + -1 = 0 := by omega
            rw [h4]
            omega
          · simp [Part000.mergeBatches, Part000.downloadBatch, hs, PdfLib.load,
              hok, hres]
            exact h3

/-- The index.js merge loop keeps at most one transient document above its
entry level, its trace is balanced, and every parse is immediately
followed by zeroing the parsed buffer. -/
theorem IndexJs.mergeLoop_zeroed_bound {Page : Type} (store : Store Page)
    (paths : List String) (acc : PDFDoc Page) (c : Int) :
    runMax c (IndexJs.mergeLoop store paths acc).2 ≤ c + 1 ∧
      docCount (IndexJs.mergeLoop store paths acc).2 = 0 ∧
      ∀ tail, zeroedAfterLoad tail = true →
        zeroedAfterLoad ((IndexJs.mergeLoop store paths acc).2 ++ tail) = true := by
  induction paths generalizing acc c with
  | nil =>
    refine ⟨?_, by simp [IndexJs.mergeLoop, docCount], ?_⟩
    · simp [IndexJs.mergeLoop, runMax]
    · intro tail htail
      simpa [IndexJs.mergeLoop] using htail
  | cons p rest ih =>
    cases hs : store p with
    | none =>
      refine ⟨?_, by simp [IndexJs.mergeLoop, IndexJs.downloadBatch, hs, docCount,
        docDelta], ?_⟩
      · simp [IndexJs.mergeLoop, IndexJs.downloadBatch, hs, runMax, docDelta]
      · intro tail htail
        simpa [IndexJs.mergeLoop, IndexJs.downloadBatch, hs, zeroedAfterLoad]
          using htail
    | some b =>
      cases hok : b.ok with
      | false =>
        refine ⟨?_, by simp [IndexJs.mergeLoop, IndexJs.downloadBatch, hs,
          PdfLib.load, hok, docCount, docDelta], ?_⟩
        · simp [IndexJs.mergeLoop, IndexJs.downloadBatch, hs, PdfLib.load, hok,
            runMax, docDelta]
        · intro tail htail
          simpa [IndexJs.mergeLoop, IndexJs.downloadBatch, hs, PdfLib.load, hok,
            zeroedAfterLoad] using htail
      | true =>
        obtain ⟨ih1, ih2, ih3⟩ := ih
          ((PdfLib.copyPages ⟨b.pages⟩ (PdfLib.getPageIndices ⟨b.pages⟩)).foldl
            PdfLib.addPage acc) c
        refine ⟨?_, ?_, ?_⟩
        · simp only [IndexJs.mergeLoop, IndexJs.downloadBatch, hs, PdfLib.load,
            hok, if_true, runMax, docDelta]
          simp only [add_zero, zero_add]
          have h : c + 1 + -1 = c := by omega
          rw [h]
          omega
        · simp [IndexJs.mergeLoop, IndexJs.downloadBatch, hs, PdfLib.load, hok,
            docCount, docDelta] at ih2 ⊢
          simpa [docCount] using ih2
        · intro tail htail
          simp only [IndexJs.mergeLoop, IndexJs.downloadBatch, hs, PdfLib.load,
            hok, if_true, List.cons_append, zeroedAfterLoad]
          exact ih3 tail htail

/-- Full-trace bound for the legacy index.js handler: at most two parsed
documents resident at any instant, and every parse is immediately followed
by zeroing the parsed buffer (`fill(0)`). -/
theorem IndexJs.mergeHandler_trace_bound {Page : Type}
    (configured secret : Option String) (store : Store Page)
    (backendErr : Option String) (body : IndexJs.MergeBody) :
    runMax 0 (IndexJs.mergeHandler configured secret store backendErr body).2.1 ≤ 2 ∧
      zeroedAfterLoad
        (IndexJs.mergeHandler configured secret store backendErr body).2.1 = true := by
  rcases body with ⟨sp, oid, fmt, onum⟩
  cases hauth : checkAuth secret configured with
  | false => simp [IndexJs.mergeHandler, hauth, runMax, zeroedAfterLoad]
  | true =>
    cases sp with
    | missing => simp [IndexJs.mergeHandler, hauth, runMax, zeroedAfterLoad]
    | nonArray => simp [IndexJs.mergeHandler, hauth, runMax, zeroedAfterLoad]
    | array xs =>
      cases xs with
      | nil => simp [IndexJs.mergeHandler, hauth, runMax, zeroedAfterLoad]
      | cons p0 ps =>
        cases hs : store p0 with
        | none =>
          simp [IndexJs.mergeHandler, hauth, IndexJs.downloadBatch, hs, runMax,
            docDelta, zeroedAfterLoad]
        | some b =>
          cases hok : b.ok with
          | false =>
            simp [IndexJs.mergeHandler, hauth, IndexJs.downloadBatch, hs,
              PdfLib.load, hok, runMax, docDelta, zeroedAfterLoad]
          | true =>
            obtain ⟨h1, h2, h3⟩ := IndexJs.mergeLoop_zeroed_bound store ps ⟨b.pages⟩ 1
            rcases hres : IndexJs.mergeLoop store ps ⟨b.pages⟩ with ⟨r, tr⟩
            rw [hres] at h1 h2 h3
            simp only at h1 h2 h3
            cases r with
            | error e =>
              constructor
              · simp only [IndexJs.mergeHandler, hauth, if_true,
                  IndexJs.downloadBatch, hs, PdfLib.load, hok, hres, runMax,
                  docDelta]
                simp only [add_zero, zero_add]
                omega
              · simp only [IndexJs.mergeHandler, hauth, if_true,
                  IndexJs.downloadBatch, hs, PdfLib.load, hok, hres,
                  zeroedAfterLoad]
                have := h3 [] (by simp [zeroedAfterLoad])
                simpa using this
            | ok finalPdf =>
              have hbound : runMax 0 (Effect.download p0 :: Effect.loadDoc ::
                  Effect.zeroBuffer :: tr ++
                    [Effect.saveDoc, Effect.releaseAccumulator] ++
                    [Effect.storageUpload ("temp/" ++ oid ++ "/merged_" ++ fmt ++ ".pdf")]) ≤ 2 := by
                simp only [List.cons_append, runMax, docDelta]
                simp only [add_zero, zero_add, List.append_eq]
                rw [List.append_assoc, runMax_append, h2]
                simp only [runMax, docDelta, add_zero]
                have h4 : (1 : Int) + -1 = 0 := by omega
                rw [h4]
                omega
              have hzero : zeroedAfterLoad (Effect.download p0 :: Effect.loadDoc ::
                  Effect.zeroBuffer :: tr ++
                    [Effect.saveDoc, Effect.releaseAccumulator] ++
                    [Effect.storageUpload ("temp/" ++ oid ++ "/merged_" ++ fmt ++ ".pdf")]) = true := by
                simp only [List.cons_append, zeroedAfterLoad, List.append_eq]
                rw [List.append_assoc]
                exact h3 _ (by simp [zeroedAfterLoad])
              cases hbe : backendErr with
              | some m =>
                constructor
                · simp only [IndexJs.mergeHandler, hauth, if_true,
                    IndexJs.downloadBatch, hs, PdfLib.load, hok, hres,
                    Supabase.upload, hbe]
                  simpa using hbound
                · simp only [IndexJs.mergeHandler, hauth, if_true,
                    IndexJs.downloadBatch, hs, PdfLib.load, hok, hres,
                    Supabase.upload, hbe]
                  simpa using hzero
              | none =>
                constructor
                · simp only [IndexJs.mergeHandler, hauth, if_true,
                    IndexJs.downloadBatch, hs, PdfLib.load, hok, hres,
                    Supabase.upload, hbe]
                  simpa using hbound
                · simp only [IndexJs.mergeHandler, hauth, if_true,
                    IndexJs.downloadBatch, hs, PdfLib.load, hok, hres,
                    Supabase.upload, hbe]
                  simpa using hzero

/-- C2 counterexample: a successful part_000 merge of one well-formed batch
parses a document (`loadDoc`) but never zeroes the downloaded buffer —
`zeroedAfterLoad` is `false`, so the raw byte buffer IS retained after a
successful parse (deliberately: the source's NOTE comments state pdf-lib
still references that memory), contradicting the claim's second conjunct. -/
theorem C2_counterexample :
    (Part000.mergeBatches storeAB ["a", "b"]).1 =
        .ok ⟨⟨[1, 2, 3, 4, 5], true⟩, 5⟩ ∧
      Effect.loadDoc ∈ (Part000.mergeBatches storeAB ["a", "b"]).2 ∧
      zeroedAfterLoad (Part000.mergeBatches storeAB ["a", "b"]).2 = false := by
  decide

/-- C2 amended: during any merge run at most two parsed documents (the
accumulator plus at most one transient source) are resident at any
instant — in both services. The raw buffer of a parsed batch, however, is
released (zeroed) only in the legacy index.js service; the v2.1
`mergeBatches` deliberately never zeroes buffers, so downloaded bytes stay
retained by the parsed document. -/
theorem C2_amended_bounded_memory {Page : Type} (store : Store Page)
    (paths : List String) (configured secret : Option String)
    (store2 : Store Page) (backendErr : Option String)
    (body : IndexJs.MergeBody) :
    runMax 0 (Part000.mergeBatches store paths).2 ≤ 2 ∧
      Effect.zeroBuffer ∉ (Part000.mergeBatches store paths).2 ∧
      runMax 0 (IndexJs.mergeHandler configured secret store2 backendErr body).2.1 ≤ 2 ∧
      zeroedAfterLoad
        (IndexJs.mergeHandler configured secret store2 backendErr body).2.1 = true := by
  obtain ⟨h1, h2⟩ := Part000.mergeBatches_trace_bound store paths
  obtain ⟨h3, h4⟩ := IndexJs.mergeHandler_trace_bound configured secret store2
    backendErr body
  exact ⟨h1, h2, h3, h4⟩

/-- C4 witness: with batches `["a", "x", "b"]` of `storeAB` (batch "x"
absent), the merge aborts with the download error for "x" after fetching
exactly `["a", "x"]` — batch "b" is never fetched. -/
theorem C4_witness :
    (∀ j (hj : j < 1), ∃ b,
        storeAB ((["a", "x", "b"] : List String).get
          ⟨j, Nat.lt_trans hj (by decide)⟩) = some b ∧ b.ok = true) ∧
      storeAB ((["a", "x", "b"] : List String).get ⟨1, by decide⟩) = none ∧
      (Part000.mergeBatches storeAB ["a", "x", "b"]).1 =
          .error ("Failed to download " ++ "x") ∧
      downloads (Part000.mergeBatches storeAB ["a", "x", "b"]).2 = ["a", "x"] := by
  have hgood : ∀ j (hj : j < 1), ∃ b,
      storeAB ((["a", "x", "b"] : List String).get
        ⟨j, Nat.lt_trans hj (by decide)⟩) = some b ∧ b.ok = true := by
    intro j hj
    interval_cases j
    exact ⟨⟨[1, 2, 3], true⟩, rfl, rfl⟩
  refine ⟨hgood, by decide, ?_⟩
  exact C4_fetch_failure_fail_fast storeAB ["a", "x", "b"] 1 (by decide)
    (by decide) hgood (by decide)

/-- Whether a `/merge-and-upload` request triggers the sidecar upload:
the source condition `if (xmlContent && xmlFilename)`. -/
def Part000.xmlAttempted (body : Part000.MergeUploadBody) : Bool :=
  jsTruthy body.xmlContent && jsTruthy body.xmlFilename

/-- When both sidecar fields are truthy, the XML step performs exactly one
transfer of the requested filename, succeeding iff the server accepts it. -/
theorem Part000.xmlUploadStep_attempted (f : Part000.FtpServer)
    (xc xn : String) (hxc : xc ≠ "") (hxn : xn ≠ "") :
    Part000.xmlUploadStep f (some xc) (some xn) =
      (match f.uploadXml with
       | .error e => (.error e, [Effect.ftpUpload xn])
       | .ok _ => (.ok true, [Effect.ftpUpload xn])) := by
  simp only [Part000.xmlUploadStep]
  rw [if_neg (by simp [hxc, hxn])]

/-- When the sidecar condition is falsy, the XML step does nothing. -/
theorem Part000.xmlUploadStep_skipped (f : Part000.FtpServer)
    (c fn : Option String) (h : (jsTruthy c && jsTruthy fn) = false) :
    Part000.xmlUploadStep f c fn = (.ok false, []) := by
  cases c with
  | none => cases fn <;> rfl
  | some xc =>
    cases fn with
    | none => rfl
    | some xn =>
      simp only [jsTruthy, Bool.and_eq_false_iff, decide_eq_false_iff_not,
        Decidable.not_not] at h
      simp only [Part000.xmlUploadStep]
      rw [if_pos (by tauto)]

/-- The part_000 merge loop never attempts a storage removal. -/
theorem Part000.mergeLoop_no_remove {Page : Type} (store : Store Page)
    (paths : List String) (acc : PDFDoc Page) :
    cleanupAttempted (Part000.mergeLoop store paths acc).2 = false := by
  induction paths generalizing acc with
  | nil => rfl
  | cons p rest ih =>
    cases hs : store p with
    | none => simp [Part000.mergeLoop, Part000.downloadBatch, hs, cleanupAttempted]
    | some b =>
      cases hok : b.ok with
      | false =>
        simp [Part000.mergeLoop, Part000.downloadBatch, hs, PdfLib.load, hok,
          cleanupAttempted]
      | true =>
        have := ih ((PdfLib.copyPages ⟨b.pages⟩
          (PdfLib.getPageIndices ⟨b.pages⟩)).foldl PdfLib.addPage acc)
        simp [Part000.mergeLoop, Part000.downloadBatch, hs, PdfLib.load, hok,
          cleanupAttempted] at this ⊢
        exact this

/-- `mergeBatches` never attempts a storage removal. -/
theorem Part000.mergeBatches_no_remove {Page : Type} (store : Store Page)
    (paths : List String) :
    cleanupAttempted (Part000.mergeBatches store paths).2 = false := by
  cases paths with
  | nil => rfl
  | cons p0 rest =>
    cases hs : store p0 with
    | none => simp [Part000.mergeBatches, Part000.downloadBatch, hs, cleanupAttempted]
    | some b =>
      cases hok : b.ok with
      | false =>
        simp [Part000.mergeBatches, Part000.downloadBatch, hs, PdfLib.load, hok,
          cleanupAttempted]
      | true =>
        have hl := Part000.mergeLoop_no_remove store rest ⟨b.pages⟩
        rcases hres : Part000.mergeLoop store rest ⟨b.pages⟩ with ⟨r, tr⟩
        rw [hres] at hl
        simp only at hl
        cases r with
        | error e =>
          simp [Part000.mergeBatches, Part000.downloadBatch, hs, PdfLib.load,
            hok, hres, cleanupAttempted]
          simpa [cleanupAttempted] using hl
        | ok finalPdf =>
          simp [Part000.mergeBatches, Part000.downloadBatch, hs, PdfLib.load,
            hok, hres, cleanupAttempted, List.any_append]
          simpa [cleanupAttempted] using hl

/-- If the sidecar condition holds, both sidecar fields are present and
non-empty. -/
theorem Part000.xmlAttempted_elim (body : Part000.MergeUploadBody)
    (h : Part000.xmlAttempted body = true) :
    ∃ xc xn, body.xmlContent = some xc ∧ body.xmlFilename = some xn ∧
      xc ≠ "" ∧ xn ≠ "" := by
  rcases hc : body.xmlContent with _ | xc <;>
    rcases hf : body.xmlFilename with _ | xn <;>
    simp [Part000.xmlAttempted, jsTruthy, hc, hf] at h
  exact ⟨xc, xn, rfl, rfl, h.1, h.2⟩

/-- C3: for an FTP delivery that reaches the upload phase, (i) a primary
PDF upload failure and (ii) an attempted sidecar upload failure each make
the handler report the whole delivery failed, with the session torn down
(`ftpClose` in the trace) and no removal of the source batches attempted;
(iii) conversely, cleanup is attempted only when the primary upload and
any attempted sidecar upload both succeeded. -/
theorem C3_ftp_failure_no_cleanup {Page : Type}
    (configured secret : Option String) (store : Store Page)
    (ftpServer : Part000.FtpServer) (removeResult : Except String Unit)
    (body : Part000.MergeUploadBody) (p0 : String) (ps : List String)
    (cfg : Part000.FtpConfig) (pdfName : String) (m : MergeResult Page)
    (hauth : checkAuth secret configured = true)
    (hpaths : body.storagePaths = .array (p0 :: ps))
    (hftp : body.ftp = some cfg)
    (hhost : cfg.host ≠ "") (huser : cfg.user ≠ "") (hpass : cfg.password ≠ "")
    (hpdf : body.pdfFilename = some pdfName) (hpdfne : pdfName ≠ "")
    (hmerge : (Part000.mergeBatches store (p0 :: ps)).1 = .ok m)
    (haccess : ftpServer.access = .ok ()) :
    (∀ e, ftpServer.uploadPdf = .error e →
        (Part000.mergeAndUploadHandler configured secret store ftpServer
            removeResult body).1 = .serverError ("FTP upload failed: " ++ e) ∧
          Effect.ftpClose ∈ (Part000.mergeAndUploadHandler configured secret
            store ftpServer removeResult body).2 ∧
          cleanupAttempted (Part000.mergeAndUploadHandler configured secret
            store ftpServer removeResult body).2 = false) ∧
      (∀ e, ftpServer.uploadPdf = .ok () → Part000.xmlAttempted body = true →
        ftpServer.uploadXml = .error e →
        (Part000.mergeAndUploadHandler configured secret store ftpServer
            removeResult body).1 = .serverError ("FTP upload failed: " ++ e) ∧
          Effect.ftpClose ∈ (Part000.mergeAndUploadHandler configured secret
            store ftpServer removeResult body).2 ∧
          cleanupAttempted (Part000.mergeAndUploadHandler configured secret
            store ftpServer removeResult body).2 = false) ∧
      (cleanupAttempted (Part000.mergeAndUploadHandler configured secret store
          ftpServer removeResult body).2 = true →
        ftpServer.uploadPdf = .ok () ∧
          (Part000.xmlAttempted body = true → ftpServer.uploadXml = .ok ())) := by
  have h0 := Part000.mergeBatches_no_remove store (p0 :: ps)
  have h0a : ∀ x ∈ (Part000.mergeBatches store (p0 :: ps)).2,
      (match x with
        | Effect.storageRemove _ => true
        | _ => false) = false := by
    intro x hx
    simp only [cleanupAttempted, List.any_eq_false] at h0
    exact Bool.eq_false_iff.mpr (h0 x hx)
  refine ⟨?_, ?_, ?_⟩
  · intro e he
    simp [Part000.mergeAndUploadHandler, hauth, hpaths, hftp, hhost, huser,
      hpass, hpdf, hpdfne, hmerge, haccess, he, cleanupAttempted,
      List.any_append]
    exact h0a
  · intro e hpdfok hatt hxmlerr
    obtain ⟨xc, xn, hxc, hxn, hxce, hxne⟩ := Part000.xmlAttempted_elim body hatt
    simp [Part000.mergeAndUploadHandler, hauth, hpaths, hftp, hhost, huser,
      hpass, hpdf, hpdfne, hmerge, haccess, hpdfok, hxc, hxn,
      Part000.xmlUploadStep_attempted ftpServer xc xn hxce hxne, hxmlerr,
      cleanupAttempted, List.any_append]
    exact h0a
  · intro hcl
    rcases hup : ftpServer.uploadPdf with e | u
    · exfalso
      simp [Part000.mergeAndUploadHandler, hauth, hpaths, hftp, hhost, huser,
        hpass, hpdf, hpdfne, hmerge, haccess, hup, cleanupAttempted,
        List.any_append] at hcl
      obtain ⟨x, hx, hrem⟩ := hcl
      have := h0a x hx
      rw [this] at hrem
      exact Bool.false_ne_true hrem
    · cases u
      cases hatt : Part000.xmlAttempted body with
      | false =>
        refine ⟨rfl, ?_⟩
        intro h
        exact absurd h (by simp)
      | true =>
        obtain ⟨xc, xn, hxc, hxn, hxce, hxne⟩ := Part000.xmlAttempted_elim body hatt
        rcases hux : ftpServer.uploadXml with e2 | u2
        · exfalso
          simp [Part000.mergeAndUploadHandler, hauth, hpaths, hftp, hhost,
            huser, hpass, hpdf, hpdfne, hmerge, haccess, hup, hxc, hxn,
            Part000.xmlUploadStep_attempted ftpServer xc xn hxce hxne, hux,
            cleanupAttempted, List.any_append] at hcl
          obtain ⟨x, hx, hrem⟩ := hcl
          have := h0a x hx
          rw [this] at hrem
          exact Bool.false_ne_true hrem
        · cases u2
          exact ⟨rfl, fun _ => rfl⟩

/-- An FTP server that rejects the first (PDF) transfer. -/
def ftpPdfFail : Part000.FtpServer := ⟨.ok (), .error "pdf fail", .ok ()⟩

/-- An FTP server that accepts everything. -/
def ftpAllOk : Part000.FtpServer := ⟨.ok (), .ok (), .ok ()⟩

/-- A fully populated `/merge-and-upload` body (sidecar content and
filename both present). -/
def bodyFull : Part000.MergeUploadBody :=
  ⟨.array ["a", "b"], "o1", "std", some ⟨"h", "u", "pw"⟩, some "<m/>",
   some "m.xml", some "out.pdf"⟩

/-- C3 witness: with an FTP server that rejects the PDF transfer, the
delivery is reported failed, the session is closed, and no cleanup of the
source batches is attempted. -/
theorem C3_witness :
    checkAuth (some "s") (some "s") = true ∧
      bodyFull.storagePaths = .array ("a" :: ["b"]) ∧
      bodyFull.ftp = some ⟨"h", "u", "pw"⟩ ∧
      bodyFull.pdfFilename = some "out.pdf" ∧
      (Part000.mergeBatches storeAB ("a" :: ["b"])).1 =
        .ok ⟨⟨[1, 2, 3, 4, 5], true⟩, 5⟩ ∧
      ftpPdfFail.access = .ok () ∧
      ftpPdfFail.uploadPdf = .error "pdf fail" ∧
      ((Part000.mergeAndUploadHandler (some "s") (some "s") storeAB ftpPdfFail
          (.ok ()) bodyFull).1 = .serverError ("FTP upload failed: " ++ "pdf fail") ∧
        Effect.ftpClose ∈ (Part000.mergeAndUploadHandler (some "s") (some "s")
          storeAB ftpPdfFail (.ok ()) bodyFull).2 ∧
        cleanupAttempted (Part000.mergeAndUploadHandler (some "s") (some "s")
          storeAB ftpPdfFail (.ok ()) bodyFull).2 = false) := by
  refine ⟨by decide, rfl, rfl, rfl, by decide, rfl, rfl, ?_⟩
  exact (C3_ftp_failure_no_cleanup (some "s") (some "s") storeAB ftpPdfFail
    (.ok ()) bodyFull "a" ["b"] ⟨"h", "u", "pw"⟩ "out.pdf"
    ⟨⟨[1, 2, 3, 4, 5], true⟩, 5⟩ (by decide) rfl rfl (by decide) (by decide)
    (by decide) rfl (by decide) (by decide) rfl).1 "pdf fail" rfl

/-- A `/merge-and-upload` body that supplies sidecar content but no sidecar
filename. -/
def bodyNoXmlName : Part000.MergeUploadBody :=
  ⟨.array ["a", "b"], "o1", "std", some ⟨"h", "u", "pw"⟩, some "<meta/>",
   none, some "out.pdf"⟩

/-- C7 counterexample: sidecar content is supplied (truthy `xmlContent`)
but, because no sidecar filename accompanies it, the code's
`if (xmlContent && xmlFilename)` guard skips the sidecar: the delivery
succeeds with only ONE FTP transfer (the PDF) and the response's
`xmlFilename` flag is `null` — the claim's "sidecar is uploaded ... and
the sidecar flag reflects that the sidecar was delivered" fails. -/
theorem C7_counterexample :
    jsTruthy bodyNoXmlName.xmlContent = true ∧
      (Part000.mergeAndUploadHandler (some "s") (some "s") storeAB ftpAllOk
        (.ok ()) bodyNoXmlName).1 = .mergeUploadOk 5 5 true "out.pdf" none ∧
      (Part000.mergeAndUploadHandler (some "s") (some "s") storeAB ftpAllOk
        (.ok ()) bodyNoXmlName).2 =
        [.download "a", .loadDoc, .download "b", .loadDoc, .discardTransient,
         .saveDoc, .releaseAccumulator, .ftpAccess "h", .ftpUpload "out.pdf",
         .ftpClose, .storageRemove ["a", "b"]] := by
  decide

/-- C7 amended: for every FTP delivery request in which sidecar content
AND a sidecar filename are both supplied (non-empty), the sidecar is
uploaded under the requested filename as a second independent transfer
after the primary PDF upload, and the delivery result's sidecar flag
carries that filename. -/
theorem C7_amended_sidecar_upload {Page : Type}
    (configured secret : Option String) (store : Store Page)
    (ftpServer : Part000.FtpServer) (removeResult : Except String Unit)
    (body : Part000.MergeUploadBody) (p0 : String) (ps : List String)
    (cfg : Part000.FtpConfig) (pdfName : String) (m : MergeResult Page)
    (xc xn : String)
    (hauth : checkAuth secret configured = true)
    (hpaths : body.storagePaths = .array (p0 :: ps))
    (hftp : body.ftp = some cfg)
    (hhost : cfg.host ≠ "") (huser : cfg.user ≠ "") (hpass : cfg.password ≠ "")
    (hpdf : body.pdfFilename = some pdfName) (hpdfne : pdfName ≠ "")
    (hmerge : (Part000.mergeBatches store (p0 :: ps)).1 = .ok m)
    (haccess : ftpServer.access = .ok ())
    (hxc : body.xmlContent = some xc) (hxce : xc ≠ "")
    (hxn : body.xmlFilename = some xn) (hxne : xn ≠ "")
    (hpdfok : ftpServer.uploadPdf = .ok ())
    (hxmlok : ftpServer.uploadXml = .ok ())
    (hremove : removeResult = .ok ()) :
    Part000.mergeAndUploadHandler configured secret store ftpServer
        removeResult body =
      (.mergeUploadOk m.mergedBytes.length m.pageCount true pdfName (some xn),
       (Part000.mergeBatches store (p0 :: ps)).2 ++
         [Effect.ftpAccess cfg.host, Effect.ftpUpload pdfName,
          Effect.ftpUpload xn, Effect.ftpClose,
          Effect.storageRemove (p0 :: ps)]) := by
  simp [Part000.mergeAndUploadHandler, hauth, hpaths, hftp, hhost, huser,
    hpass, hpdf, hpdfne, hmerge, haccess, hpdfok, hxc, hxn,
    Part000.xmlUploadStep_attempted ftpServer xc xn hxce hxne, hxmlok, hremove]

/-- C7 witness: with both sidecar fields supplied and an accepting server,
the sidecar is uploaded as the second transfer and reported back. -/
theorem C7_witness :
    bodyFull.xmlContent = some "<m/>" ∧
      bodyFull.xmlFilename = some "m.xml" ∧
      ftpAllOk.uploadPdf = .ok () ∧ ftpAllOk.uploadXml = .ok () ∧
      Part000.mergeAndUploadHandler (some "s") (some "s") storeAB ftpAllOk
          (.ok ()) bodyFull =
        (.mergeUploadOk 5 5 true "out.pdf" (some "m.xml"),
         (Part000.mergeBatches storeAB ("a" :: ["b"])).2 ++
           [Effect.ftpAccess "h", Effect.ftpUpload "out.pdf",
            Effect.ftpUpload "m.xml", Effect.ftpClose,
            Effect.storageRemove ("a" :: ["b"])]) :=
  ⟨rfl, rfl, rfl, rfl,
   C7_amended_sidecar_upload (some "s") (some "s") storeAB ftpAllOk (.ok ())
     bodyFull "a" ["b"] ⟨"h", "u", "pw"⟩ "out.pdf" ⟨⟨[1, 2, 3, 4, 5], true⟩, 5⟩
     "<m/>" "m.xml" (by decide) rfl rfl (by decide) (by decide) (by decide)
     rfl (by decide) (by decide) rfl rfl (by decide) rfl (by decide) rfl rfl rfl⟩

/-- C6: for a delivery whose merge, connect and uploads succeed, the
outcome of the best-effort cleanup never changes the reported response:
the response is identical for any two cleanup outcomes, a failing cleanup
still yields the same success response, and the caught failure is only
surfaced as a warning diagnostic in the trace. -/
theorem C6_cleanup_failure_ignored {Page : Type}
    (configured secret : Option String) (store : Store Page)
    (ftpServer : Part000.FtpServer) (body : Part000.MergeUploadBody)
    (p0 : String) (ps : List String) (cfg : Part000.FtpConfig)
    (pdfName : String) (m : MergeResult Page) (w : String)
    (hauth : checkAuth secret configured = true)
    (hpaths : body.storagePaths = .array (p0 :: ps))
    (hftp : body.ftp = some cfg)
    (hhost : cfg.host ≠ "") (huser : cfg.user ≠ "") (hpass : cfg.password ≠ "")
    (hpdf : body.pdfFilename = some pdfName) (hpdfne : pdfName ≠ "")
    (hmerge : (Part000.mergeBatches store (p0 :: ps)).1 = .ok m)
    (haccess : ftpServer.access = .ok ())
    (hpdfok : ftpServer.uploadPdf = .ok ())
    (hxmlok : Part000.xmlAttempted body = true → ftpServer.uploadXml = .ok ()) :
    (∀ r₁ r₂ : Except String Unit,
        (Part000.mergeAndUploadHandler configured secret store ftpServer r₁
          body).1 =
        (Part000.mergeAndUploadHandler configured secret store ftpServer r₂
          body).1) ∧
      (Part000.mergeAndUploadHandler configured secret store ftpServer
          (.error w) body).1 =
        .mergeUploadOk m.mergedBytes.length m.pageCount true pdfName
          (if Part000.xmlAttempted body then body.xmlFilename else none) ∧
      Effect.cleanupWarning ∈ (Part000.mergeAndUploadHandler configured secret
        store ftpServer (.error w) body).2 := by
  have key : ∀ r : Except String Unit,
      (Part000.mergeAndUploadHandler configured secret store ftpServer r
        body).1 =
      .mergeUploadOk m.mergedBytes.length m.pageCount true pdfName
        (if Part000.xmlAttempted body then body.xmlFilename else none) := by
    intro r
    cases hatt : Part000.xmlAttempted body with
    | false =>
      have hskip : (jsTruthy body.xmlContent && jsTruthy body.xmlFilename) = false := by
        simpa [Part000.xmlAttempted] using hatt
      simp [Part000.mergeAndUploadHandler, hauth, hpaths, hftp, hhost, huser,
        hpass, hpdf, hpdfne, hmerge, haccess, hpdfok,
        Part000.xmlUploadStep_skipped ftpServer body.xmlContent
          body.xmlFilename hskip]
    | true =>
      obtain ⟨xc, xn, hxc, hxn, hxce, hxne⟩ := Part000.xmlAttempted_elim body hatt
      simp [Part000.mergeAndUploadHandler, hauth, hpaths, hftp, hhost, huser,
        hpass, hpdf, hpdfne, hmerge, haccess, hpdfok, hxc, hxn,
        Part000.xmlUploadStep_attempted ftpServer xc xn hxce hxne, hxmlok hatt]
  refine ⟨fun r₁ r₂ => (key r₁).trans (key r₂).symm, key (.error w), ?_⟩
  cases hatt : Part000.xmlAttempted body with
  | false =>
    have hskip : (jsTruthy body.xmlContent && jsTruthy body.xmlFilename) = false := by
      simpa [Part000.xmlAttempted] using hatt
    simp [Part000.mergeAndUploadHandler, hauth, hpaths, hftp, hhost, huser,
      hpass, hpdf, hpdfne, hmerge, haccess, hpdfok,
      Part000.xmlUploadStep_skipped ftpServer body.xmlContent
        body.xmlFilename hskip]
  | true =>
    obtain ⟨xc, xn, hxc, hxn, hxce, hxne⟩ := Part000.xmlAttempted_elim body hatt
    simp [Part000.mergeAndUploadHandler, hauth, hpaths, hftp, hhost, huser,
      hpass, hpdf, hpdfne, hmerge, haccess, hpdfok, hxc, hxn,
      Part000.xmlUploadStep_attempted ftpServer xc xn hxce hxne, hxmlok hatt]

/-- C6 witness: with a cleanup that throws `"boom"`, the response is the
same success as with a succeeding cleanup, and the warning is recorded. -/
theorem C6_witness :
    (Part000.mergeAndUploadHandler (some "s") (some "s") storeAB ftpAllOk
        (Except.error "boom") bodyFull).1 =
      (Part000.mergeAndUploadHandler (some "s") (some "s") storeAB ftpAllOk
        (Except.ok ()) bodyFull).1 ∧
      (Part000.mergeAndUploadHandler (some "s") (some "s") storeAB ftpAllOk
          (Except.error "boom") bodyFull).1 =
        .mergeUploadOk 5 5 true "out.pdf"
          (if Part000.xmlAttempted bodyFull then bodyFull.xmlFilename else none) ∧
      Effect.cleanupWarning ∈ (Part000.mergeAndUploadHandler (some "s")
        (some "s") storeAB ftpAllOk (Except.error "boom") bodyFull).2 := by
  have h := C6_cleanup_failure_ignored (some "s") (some "s") storeAB ftpAllOk
    bodyFull "a" ["b"] ⟨"h", "u", "pw"⟩ "out.pdf" ⟨⟨[1, 2, 3, 4, 5], true⟩, 5⟩
    "boom" (by decide) rfl rfl (by decide) (by decide) (by decide) rfl
    (by decide) (by decide) rfl rfl (fun _ => rfl)
  exact ⟨h.1 (Except.error "boom") (Except.ok ()), h.2.1, h.2.2⟩

/-- The source validation `!storagePaths || !Array.isArray(storagePaths) ||
storagePaths.length === 0` (true when the request must be rejected). -/
def invalidPaths : BodyField String → Bool
  | .array (_ :: _) => false
  | _ => true

/-- C5: every request whose batch list is missing, not an array, or empty
is rejected with a validation error before any work: the effect trace is
empty (in particular no batch fetch occurs) — on all three endpoints. -/
theorem C5_empty_rejected_before_fetch {Page : Type}
    (configured secret : Option String) (store : Store Page)
    (backendErr : Option String) (ftpServer : Part000.FtpServer)
    (removeResult : Except String Unit)
    (b1 : Part000.MergeBody) (b2 : Part000.MergeUploadBody)
    (b3 : IndexJs.MergeBody)
    (hauth : checkAuth secret configured = true) :
    (invalidPaths b1.storagePaths = true →
        (Part000.mergeHandler configured secret store backendErr b1).1 =
            .badRequest "storagePaths is required" ∧
          (Part000.mergeHandler configured secret store backendErr b1).2.1 = []) ∧
      (invalidPaths b2.storagePaths = true →
        (Part000.mergeAndUploadHandler configured secret store ftpServer
            removeResult b2).1 = .badRequest "storagePaths is required" ∧
          (Part000.mergeAndUploadHandler configured secret store ftpServer
            removeResult b2).2 = []) ∧
      (invalidPaths b3.storagePaths = true →
        (IndexJs.mergeHandler configured secret store backendErr b3).1 =
            .badRequest "storagePaths is required and must be a non-empty array" ∧
          (IndexJs.mergeHandler configured secret store backendErr b3).2.1 = []) := by
  refine ⟨?_, ?_, ?_⟩
  · intro h
    rcases hsp : b1.storagePaths with _ | _ | xs
    · simp [Part000.mergeHandler, hauth, hsp]
    · simp [Part000.mergeHandler, hauth, hsp]
    · cases xs with
      | nil => simp [Part000.mergeHandler, hauth, hsp]
      | cons x xs =>
        rw [hsp] at h
        simp [invalidPaths] at h
  · intro h
    rcases hsp : b2.storagePaths with _ | _ | xs
    · simp [Part000.mergeAndUploadHandler, hauth, hsp]
    · simp [Part000.mergeAndUploadHandler, hauth, hsp]
    · cases xs with
      | nil => simp [Part000.mergeAndUploadHandler, hauth, hsp]
      | cons x xs =>
        rw [hsp] at h
        simp [invalidPaths] at h
  · intro h
    rcases hsp : b3.storagePaths with _ | _ | xs
    · simp [IndexJs.mergeHandler, hauth, hsp]
    · simp [IndexJs.mergeHandler, hauth, hsp]
    · cases xs with
      | nil => simp [IndexJs.mergeHandler, hauth, hsp]
      | cons x xs =>
        rw [hsp] at h
        simp [invalidPaths] at h

/-- C5 witness: a missing batch list, an empty array and a non-array value
are each rejected with empty effect traces. -/
theorem C5_witness :
    checkAuth (some "s") (some "s") = true ∧
      invalidPaths (Part000.MergeBody.mk .missing "o1" "std").storagePaths = true ∧
      invalidPaths (Part000.MergeUploadBody.mk (.array []) "o1" "std"
        (some ⟨"h", "u", "pw"⟩) none none (some "out.pdf")).storagePaths = true ∧
      invalidPaths (IndexJs.MergeBody.mk .nonArray "o1" "std" "7").storagePaths = true ∧
      ((Part000.mergeHandler (some "s") (some "s") storeAB none
          (Part000.MergeBody.mk .missing "o1" "std")).1 =
            .badRequest "storagePaths is required" ∧
        (Part000.mergeHandler (some "s") (some "s") storeAB none
          (Part000.MergeBody.mk .missing "o1" "std")).2.1 = []) ∧
      ((Part000.mergeAndUploadHandler (some "s") (some "s") storeAB ftpAllOk
          (.ok ()) (Part000.MergeUploadBody.mk (.array []) "o1" "std"
            (some ⟨"h", "u", "pw"⟩) none none (some "out.pdf"))).1 =
            .badRequest "storagePaths is required" ∧
        (Part000.mergeAndUploadHandler (some "s") (some "s") storeAB ftpAllOk
          (.ok ()) (Part000.MergeUploadBody.mk (.array []) "o1" "std"
            (some ⟨"h", "u", "pw"⟩) none none (some "out.pdf"))).2 = []) ∧
      ((IndexJs.mergeHandler (some "s") (some "s") storeAB none
          (IndexJs.MergeBody.mk .nonArray "o1" "std" "7")).1 =
            .badRequest "storagePaths is required and must be a non-empty array" ∧
        (IndexJs.mergeHandler (some "s") (some "s") storeAB none
          (IndexJs.MergeBody.mk .nonArray "o1" "std" "7")).2.1 = []) := by
  have h := C5_empty_rejected_before_fetch (some "s") (some "s") storeAB none
    ftpAllOk (.ok ()) (Part000.MergeBody.mk .missing "o1" "std")
    (Part000.MergeUploadBody.mk (.array []) "o1" "std" (some ⟨"h", "u", "pw"⟩)
      none none (some "out.pdf"))
    (IndexJs.MergeBody.mk .nonArray "o1" "std" "7") (by decide)
  exact ⟨by decide, rfl, rfl, rfl, h.1 rfl, h.2.1 rfl, h.2.2 rfl⟩

/-- C10: a request whose `x-api-secret` header is missing or different
from the configured secret is answered 401 Unauthorized with an empty
effect trace (no download, merge or upload work) — on all three
endpoints. -/
theorem C10_unauthorized_no_work {Page : Type}
    (configured secret : Option String) (store : Store Page)
    (backendErr : Option String) (ftpServer : Part000.FtpServer)
    (removeResult : Except String Unit)
    (b1 : Part000.MergeBody) (b2 : Part000.MergeUploadBody)
    (b3 : IndexJs.MergeBody)
    (hbad : secret = none ∨ secret ≠ configured) :
    (Part000.mergeHandler configured secret store backendErr b1).1 =
        .unauthorized ∧
      (Part000.mergeHandler configured secret store backendErr b1).2.1 = [] ∧
      (Part000.mergeAndUploadHandler configured secret store ftpServer
        removeResult b2).1 = .unauthorized ∧
      (Part000.mergeAndUploadHandler configured secret store ftpServer
        removeResult b2).2 = [] ∧
      (IndexJs.mergeHandler configured secret store backendErr b3).1 =
        .unauthorized ∧
      (IndexJs.mergeHandler configured secret store backendErr b3).2.1 = [] := by
  have hfalse : checkAuth secret configured = false := by
    rcases hbad with rfl | hne
    · rfl
    · cases secret with
      | none => rfl
      | some s =>
        simp only [checkAuth]
        by_cases hs : s = ""
        · simp [hs]
        · rw [if_neg hs, if_neg (fun hc => hne hc.symm)]
  simp [Part000.mergeHandler, Part000.mergeAndUploadHandler,
    IndexJs.mergeHandler, hfalse]

/-- C10 witness: a request with no `x-api-secret` header is rejected with
401 and no effects on all three endpoints. -/
theorem C10_witness :
    ((none : Option String) = none ∨ (none : Option String) ≠ some "s") ∧
      (Part000.mergeHandler (some "s") none storeAB none
        (Part000.MergeBody.mk (.array ["a"]) "o1" "std")).1 = .unauthorized ∧
      (Part000.mergeHandler (some "s") none storeAB none
        (Part000.MergeBody.mk (.array ["a"]) "o1" "std")).2.1 = [] ∧
      (Part000.mergeAndUploadHandler (some "s") none storeAB ftpAllOk (.ok ())
        bodyFull).1 = .unauthorized ∧
      (Part000.mergeAndUploadHandler (some "s") none storeAB ftpAllOk (.ok ())
        bodyFull).2 = [] ∧
      (IndexJs.mergeHandler (some "s") none storeAB none
        (IndexJs.MergeBody.mk (.array ["a"]) "o1" "std" "7")).1 = .unauthorized ∧
      (IndexJs.mergeHandler (some "s") none storeAB none
        (IndexJs.MergeBody.mk (.array ["a"]) "o1" "std" "7")).2.1 = [] := by
  have h := C10_unauthorized_no_work (some "s") none storeAB none ftpAllOk
    (.ok ()) (Part000.MergeBody.mk (.array ["a"]) "o1" "std") bodyFull
    (IndexJs.MergeBody.mk (.array ["a"]) "o1" "std" "7") (Or.inl rfl)
  exact ⟨Or.inl rfl, h.1, h.2.1, h.2.2.1, h.2.2.2.1, h.2.2.2.2.1, h.2.2.2.2.2⟩

/-- The merge loop only reads the store at the remaining batch paths. -/
theorem Part000.mergeLoop_congr {Page : Type} (store store' : Store Page)
    (paths : List String) (acc : PDFDoc Page)
    (h : ∀ p ∈ paths, store' p = store p) :
    Part000.mergeLoop store' paths acc = Part000.mergeLoop store paths acc := by
  induction paths generalizing acc with
  | nil => rfl
  | cons p rest ih =>
    have hp : store' p = store p := h p (by simp)
    have hrest : ∀ q ∈ rest, store' q = store q := fun q hq => h q (by simp [hq])
    cases hs : store p with
    | none => simp [Part000.mergeLoop, Part000.downloadBatch, hp, hs]
    | some b =>
      cases hok : b.ok with
      | false =>
        simp [Part000.mergeLoop, Part000.downloadBatch, hp, hs, PdfLib.load, hok]
      | true =>
        simp only [Part000.mergeLoop, Part000.downloadBatch, hp, hs,
          PdfLib.load, hok, if_true]
        rw [ih _ hrest]

/-- `mergeBatches` only reads the store at the batch paths. -/
theorem Part000.mergeBatches_congr {Page : Type} (store store' : Store Page)
    (paths : List String) (h : ∀ p ∈ paths, store' p = store p) :
    Part000.mergeBatches store' paths = Part000.mergeBatches store paths := by
  cases paths with
  | nil => rfl
  | cons p0 rest =>
    have hp : store' p0 = store p0 := h p0 (by simp)
    have hrest : ∀ q ∈ rest, store' q = store q := fun q hq => h q (by simp [hq])
    cases hs : store p0 with
    | none => simp [Part000.mergeBatches, Part000.downloadBatch, hp, hs]
    | some b =>
      cases hok : b.ok with
      | false =>
        simp [Part000.mergeBatches, Part000.downloadBatch, hp, hs, PdfLib.load,
          hok]
      | true =>
        simp only [Part000.mergeBatches, Part000.downloadBatch, hp, hs,
          PdfLib.load, hok, if_true]
        rw [Part000.mergeLoop_congr store store' rest ⟨b.pages⟩ hrest]

/-- C9: the object-storage destination path is the deterministic
interpolation of the caller's run identifier and format tag, the upload is
performed with `upsert: true` (overwrite-on-conflict), and re-running the
same delivery against the store produced by the first run succeeds again
with the identical response (same path, size and page count). -/
theorem C9_idempotent_redelivery {Page : Type}
    (configured secret : Option String) (store : Store Page)
    (body : Part000.MergeBody) (p0 : String) (ps : List String)
    (m : MergeResult Page)
    (hauth : checkAuth secret configured = true)
    (hpaths : body.storagePaths = .array (p0 :: ps))
    (hmerge : (Part000.mergeBatches store (p0 :: ps)).1 = .ok m)
    (hfresh : ("temp/" ++ body.orderId ++ "/merged_" ++ body.format ++ ".pdf")
      ∉ p0 :: ps) :
    (Part000.mergeHandler configured secret store none body).1 =
        .mergeOk ("temp/" ++ body.orderId ++ "/merged_" ++ body.format ++ ".pdf")
          m.mergedBytes.length m.pageCount ∧
      (Part000.mergeHandler configured secret store none body).2.2
          ("temp/" ++ body.orderId ++ "/merged_" ++ body.format ++ ".pdf") =
        some m.mergedBytes ∧
      (Part000.mergeHandler configured secret
          (Part000.mergeHandler configured secret store none body).2.2 none
          body).1 =
        (Part000.mergeHandler configured secret store none body).1 := by
  have hrun1 : Part000.mergeHandler configured secret store none body =
      (.mergeOk ("temp/" ++ body.orderId ++ "/merged_" ++ body.format ++ ".pdf")
         m.mergedBytes.length m.pageCount,
       (Part000.mergeBatches store (p0 :: ps)).2 ++
         [Effect.storageUpload
           ("temp/" ++ body.orderId ++ "/merged_" ++ body.format ++ ".pdf")],
       fun q =>
         if q = "temp/" ++ body.orderId ++ "/merged_" ++ body.format ++ ".pdf"
         then some m.mergedBytes else store q) := by
    simp [Part000.mergeHandler, hauth, hpaths, hmerge, Supabase.upload]
  have hagree : ∀ p ∈ p0 :: ps,
      (fun q =>
        if q = "temp/" ++ body.orderId ++ "/merged_" ++ body.format ++ ".pdf"
        then some m.mergedBytes else store q) p = store p := by
    intro p hp
    have : p ≠ "temp/" ++ body.orderId ++ "/merged_" ++ body.format ++ ".pdf" :=
      fun he => hfresh (he ▸ hp)
    simp [this]
  refine ⟨by rw [hrun1], by rw [hrun1]; simp, ?_⟩
  rw [hrun1]
  simp only
  have hm2 := Part000.mergeBatches_congr store
    (fun q =>
      if q = "temp/" ++ body.orderId ++ "/merged_" ++ body.format ++ ".pdf"
      then some m.mergedBytes else store q) (p0 :: ps) hagree
  simp [Part000.mergeHandler, hauth, hpaths, hm2, hmerge, Supabase.upload]

/-- A concrete `/merge` body for the idempotent-redelivery witness. -/
def bodyMerge : Part000.MergeBody := ⟨.array ["a", "b"], "o1", "std"⟩

/-- C9 witness: delivering run "o1"/"std" twice (the second run starting
from the store the first run produced) succeeds both times with the same
deterministic path and the same size/page count. -/
theorem C9_witness :
    checkAuth (some "s") (some "s") = true ∧
      bodyMerge.storagePaths = .array ("a" :: ["b"]) ∧
      (Part000.mergeBatches storeAB ("a" :: ["b"])).1 =
        .ok ⟨⟨[1, 2, 3, 4, 5], true⟩, 5⟩ ∧
      ("temp/" ++ bodyMerge.orderId ++ "/merged_" ++ bodyMerge.format ++ ".pdf")
        ∉ "a" :: ["b"] ∧
      ((Part000.mergeHandler (some "s") (some "s") storeAB none bodyMerge).1 =
          .mergeOk ("temp/" ++ bodyMerge.orderId ++ "/merged_" ++
            bodyMerge.format ++ ".pdf") 5 5 ∧
        (Part000.mergeHandler (some "s") (some "s") storeAB none bodyMerge).2.2
            ("temp/" ++ bodyMerge.orderId ++ "/merged_" ++ bodyMerge.format ++
              ".pdf") =
          some ⟨[1, 2, 3, 4, 5], true⟩ ∧
        (Part000.mergeHandler (some "s") (some "s")
            (Part000.mergeHandler (some "s") (some "s") storeAB none
              bodyMerge).2.2 none bodyMerge).1 =
          (Part000.mergeHandler (some "s") (some "s") storeAB none
            bodyMerge).1) := by
  refine ⟨by decide, rfl, by decide, by decide, ?_⟩
  exact C9_idempotent_redelivery (some "s") (some "s") storeAB bodyMerge "a"
    ["b"] ⟨⟨[1, 2, 3, 4, 5], true⟩, 5⟩ (by decide) rfl (by decide) (by decide)

end PdfMerge
